import Mathlib

/-!
Verification of the PAPPL printer-application core against its specification.

The definitions below are a shallow embedding of the C sources
`pappl/job-process.c`, `pappl/printer.c`, `pappl/printer-webif.c` and
`pappl/printer-driver.c`: machine integers become `Nat`/`Int`, pointer
stepping becomes index arithmetic, the CUPS arrays become lists, and the
driver callbacks become explicit boolean oracles.  Each claim of the
specification is then stated and settled as a theorem about these
definitions.
-/

set_option maxRecDepth 4000

/-! ## Job and printer state (job-process.c `_papplJobProcess`) -/

/-- IPP job states used by the job processor (subset of `ipp_jstate_t`). -/
inductive JState where
  | pending | held | processing | stopped | canceled | aborted | completed
deriving DecidableEq, Repr

/-- IPP printer states (`ipp_pstate_t`). -/
inductive PState where
  | idle | processing | stopped
deriving DecidableEq, Repr

/-- The part of `pappl_job_t`/`pappl_printer_t` state touched by the
finalization block of `_papplJobProcess` (job-process.c lines 116-139). -/
structure FinalizeState where
  jobState      : JState
  isCanceled    : Bool
  completedTime : Option Nat
  printerState  : PState
  processingJob : Option Nat
  activeJobs    : List Nat
  completedJobs : List Nat
deriving DecidableEq, Repr

/-- Embedding of the finalization block of `_papplJobProcess`: after the
format handler has returned, the job becomes canceled if `is_canceled`,
else completed if still processing; `job->completed`, `printer->state`,
`printer->processing_job` are updated and the job moves from the
`active_jobs` array to the `completed_jobs` array. -/
def jobProcessFinalize (now : Nat) (jobId : Nat) (s : FinalizeState) :
    FinalizeState :=
  let st :=
    if s.isCanceled then JState.canceled
    else if s.jobState = JState.processing then JState.completed
    else s.jobState
  { jobState      := st
    isCanceled    := s.isCanceled
    completedTime := some now
    printerState  := PState.idle
    processingJob := none
    activeJobs    := s.activeJobs.erase jobId
    completedJobs := jobId :: s.completedJobs }

/-! ## Device acquisition (job-process.c `_papplJobProcess` lines 61-87) -/

/-- State threaded through the device-open retry loop. -/
structure AcquireState where
  device       : Bool
  printerState : PState
  logCount     : Nat
  sleepCount   : Nat
  firstOpen    : Bool
deriving DecidableEq, Repr

/-- Initial state of the retry loop on entry to `_papplJobProcess`
(no device held, `first_open = 1`). -/
def acquireInit (ps : PState) : AcquireState :=
  { device := false, printerState := ps, logCount := 0, sleepCount := 0,
    firstOpen := true }

/-- One failed `papplDeviceOpen` attempt: log once (only while
`first_open`), set the printer state to stopped on the first failure,
then `sleep(5)`. -/
def acquireFail (s : AcquireState) : AcquireState :=
  if s.firstOpen then
    { s with logCount := s.logCount + 1, printerState := PState.stopped,
             firstOpen := false, sleepCount := s.sleepCount + 1 }
  else
    { s with sleepCount := s.sleepCount + 1 }

/-- The `while (!job->printer->device)` retry loop, fueled: `openOk n`
is the outcome of the n-th `papplDeviceOpen` call (the C loop has no
exit other than a successful open, so with insufficient fuel the model
simply reports the state after `fuel` failed attempts). -/
def acquireLoop (openOk : Nat → Bool) : Nat → Nat → AcquireState → AcquireState
  | 0, _, s => s
  | fuel + 1, attempt, s =>
    if s.device then s
    else if openOk attempt then { s with device := true }
    else acquireLoop openOk fuel (attempt + 1) (acquireFail s)

/-- Device-acquisition phase of `_papplJobProcess`: run the retry loop,
then unconditionally set the printer state to processing. -/
def jobProcessAcquire (openOk : Nat → Bool) (fuel : Nat) (ps : PState) :
    AcquireState :=
  let r := acquireLoop openOk fuel 0 (acquireInit ps)
  { r with printerState := PState.processing }

/-! ## Preset name management (printer-webif.c) -/

/-- ASCII `tolower` on a single character, as applied by `strcasecmp`
to each byte. -/
def asciiLower (c : Char) : Char :=
  if 'A' ≤ c ∧ c ≤ 'Z' then Char.ofNat (c.toNat + 32) else c

/-- `strcasecmp` equality on ASCII names, as used by every preset-name
comparison in printer-webif.c. -/
def nameEqCI (a b : String) : Bool :=
  a.data.map asciiLower == b.data.map asciiLower

/-- `true` when some pair of distinct entries collide case-insensitively. -/
def hasDupNameCI : List String → Bool
  | [] => false
  | n :: rest => rest.any (fun m => nameEqCI n m) || hasDupNameCI rest

/-- Embedding of the duplicate check of `_papplPrinterPresetCreate`
(printer-webif.c lines 1262-1282) and `_papplPrinterPresetCopy` (lines
461-484): scan the printer's presets for a case-insensitive name match;
on a hit report the name-conflict status and leave the collection
untouched; otherwise append the new preset.  The append itself is done
by `papplPrinterAddPresetCreate`, which is declared but not present in
the sources; appending to the ordered collection is modelled from the
spec ("create adds the Preset to the Printer's ordered collection"). -/
def presetCreate (names : List String) (newName : String) :
    List String × Bool :=
  if names.any (fun m => nameEqCI m newName) then (names, true)
  else (names ++ [newName], false)

/-- The copy operation's POST handler performs exactly the same
name-conflict check and conditional append as create
(printer-webif.c lines 461-484, 610-619). -/
def presetCopy (names : List String) (newName : String) :
    List String × Bool :=
  presetCreate names newName

/-- Index of the first preset whose name matches `target`
case-insensitively; `_papplPrinterPresetEdit` locates `iterator_preset`
this way (printer-webif.c lines 2055-2063). -/
def findPresetIdx (names : List String) (target : String) : Option Nat :=
  names.findIdx? (fun n => nameEqCI n target)

/-- Embedding of the rename performed by `_papplPrinterPresetEdit`
(printer-webif.c lines 2119-2123): the located preset's name is
overwritten with the submitted `preset_name`, with no uniqueness
check of any kind. -/
def presetEditRename (names : List String) (target newName : String) :
    List String :=
  match findPresetIdx names target with
  | some i => names.set i newName
  | none   => names

/-! ## Claims C1, C6, C7 -/

/-- C1: finalization of `_papplJobProcess`: canceled jobs end canceled,
still-processing jobs end completed, the completion time is set, the
printer returns to idle with no processing job, and the job moves from
`active_jobs` to `completed_jobs`. -/
theorem jobProcess_finalize_correct (now jobId : Nat) (s : FinalizeState) :
    (s.isCanceled = true →
      (jobProcessFinalize now jobId s).jobState = JState.canceled) ∧
    (s.isCanceled = false → s.jobState = JState.processing →
      (jobProcessFinalize now jobId s).jobState = JState.completed) ∧
    (jobProcessFinalize now jobId s).completedTime = some now ∧
    (jobProcessFinalize now jobId s).processingJob = none ∧
    (jobProcessFinalize now jobId s).printerState = PState.idle ∧
    (jobProcessFinalize now jobId s).activeJobs = s.activeJobs.erase jobId ∧
    jobId ∈ (jobProcessFinalize now jobId s).completedJobs := by
  refine ⟨?_, ?_, rfl, rfl, rfl, rfl, List.mem_cons_self _ _⟩
  · intro h
    simp [jobProcessFinalize, h]
  · intro h hp
    simp [jobProcessFinalize, h, hp]

theorem jobProcess_finalize_correct_witness :
    (let s : FinalizeState :=
      { jobState := JState.processing, isCanceled := false,
        completedTime := none, printerState := PState.processing,
        processingJob := some 7, activeJobs := [7], completedJobs := [] }
     (s.isCanceled = true →
       (jobProcessFinalize 100 7 s).jobState = JState.canceled) ∧
     (s.isCanceled = false → s.jobState = JState.processing →
       (jobProcessFinalize 100 7 s).jobState = JState.completed) ∧
     (jobProcessFinalize 100 7 s).completedTime = some 100 ∧
     (jobProcessFinalize 100 7 s).processingJob = none ∧
     (jobProcessFinalize 100 7 s).printerState = PState.idle ∧
     (jobProcessFinalize 100 7 s).activeJobs = s.activeJobs.erase 7 ∧
     7 ∈ (jobProcessFinalize 100 7 s).completedJobs) :=
  jobProcess_finalize_correct 100 7 _

/-- Running the retry loop with `k` failed attempts followed by a
success: one log entry and the stopped state on the first failure only,
one `sleep(5)` per failure, then the device is acquired. -/
theorem acquireLoop_run (openOk : Nat → Bool) :
    ∀ (k attempt : Nat) (s : AcquireState), s.device = false →
    (∀ j, j < k → openOk (attempt + j) = false) →
    openOk (attempt + k) = true →
    acquireLoop openOk (k + 1) attempt s =
      { device := true,
        printerState := if k = 0 then s.printerState
          else if s.firstOpen then PState.stopped else s.printerState,
        logCount := s.logCount +
          (if k = 0 then 0 else if s.firstOpen then 1 else 0),
        sleepCount := s.sleepCount + k,
        firstOpen := if k = 0 then s.firstOpen else false } := by
  intro k
  induction k with
  | zero =>
    intro attempt s hdev _ hk
    simp only [Nat.add_zero] at hk
    simp [acquireLoop, hdev, hk]
  | succ k ih =>
    intro attempt s hdev hfail hk
    have h0 : openOk attempt = false := by
      have := hfail 0 (Nat.succ_pos k); simpa using this
    rw [show k + 1 + 1 = (k + 1) + 1 from rfl]
    rw [acquireLoop]
    simp only [hdev, h0, Bool.false_eq_true, if_false]
    have hfail' : ∀ j, j < k → openOk (attempt + 1 + j) = false := by
      intro j hj
      have := hfail (j + 1) (Nat.succ_lt_succ hj)
      simpa [Nat.add_assoc, Nat.add_comm 1 j] using this
    have hk' : openOk (attempt + 1 + k) = true := by
      simpa [Nat.add_assoc, Nat.add_comm 1 k] using hk
    by_cases hf : s.firstOpen
    · have hdev' : (acquireFail s).device = false := by
        simp [acquireFail, hf, hdev]
      rw [ih (attempt + 1) (acquireFail s) hdev' hfail' hk']
      simp [acquireFail, hf]
      omega
    · have hdev' : (acquireFail s).device = false := by
        simp [acquireFail, hf, hdev]
      rw [ih (attempt + 1) (acquireFail s) hdev' hfail' hk']
      simp [acquireFail, hf]
      omega

/-- If every attempt within the given fuel fails, the loop never gives
up on its own: the device stays unopened, there is one `sleep(5)` per
attempt, and at most one log message is ever emitted. -/
theorem acquireLoop_all_fail (openOk : Nat → Bool) :
    ∀ (fuel attempt : Nat) (s : AcquireState), s.device = false →
    (∀ j, j < fuel → openOk (attempt + j) = false) →
    (acquireLoop openOk fuel attempt s).device = false ∧
    (acquireLoop openOk fuel attempt s).sleepCount = s.sleepCount + fuel ∧
    (acquireLoop openOk fuel attempt s).logCount = s.logCount +
      (if fuel = 0 then 0 else if s.firstOpen then 1 else 0) := by
  intro fuel
  induction fuel with
  | zero =>
    intro attempt s hdev _
    simp [acquireLoop, hdev]
  | succ fuel ih =>
    intro attempt s hdev hfail
    have h0 : openOk attempt = false := by
      have := hfail 0 (Nat.succ_pos fuel); simpa using this
    rw [acquireLoop]
    simp only [hdev, h0, Bool.false_eq_true, if_false]
    have hfail' : ∀ j, j < fuel → openOk (attempt + 1 + j) = false := by
      intro j hj
      have := hfail (j + 1) (Nat.succ_lt_succ hj)
      simpa [Nat.add_assoc, Nat.add_comm 1 j] using this
    have hdev' : (acquireFail s).device = false := by
      by_cases hf : s.firstOpen <;> simp [acquireFail, hf, hdev]
    obtain ⟨h1, h2, h3⟩ := ih (attempt + 1) (acquireFail s) hdev' hfail'
    refine ⟨h1, ?_, ?_⟩
    · rw [h2]
      by_cases hf : s.firstOpen <;> simp [acquireFail, hf] <;> omega
    · rw [h3]
      by_cases hf : s.firstOpen <;> simp [acquireFail, hf] <;> split <;> omega

/-- C6: when the printer's device cannot be opened, the first failure
logs once and stops the printer, retries happen silently (one sleep per
attempt) for as long as opens keep failing, and as soon as an open
succeeds the printer state becomes processing and the job proceeds. -/
theorem jobProcess_device_retry_correct (openOk : Nat → Bool) (k : Nat)
    (ps : PState)
    (hfail : ∀ j, j < k → openOk j = false) (hsucc : openOk k = true) :
    (jobProcessAcquire openOk (k + 1) ps).device = true ∧
    (jobProcessAcquire openOk (k + 1) ps).printerState = PState.processing ∧
    (jobProcessAcquire openOk (k + 1) ps).logCount =
      (if k = 0 then 0 else 1) ∧
    (jobProcessAcquire openOk (k + 1) ps).sleepCount = k ∧
    (k ≠ 0 →
      (acquireLoop openOk (k + 1) 0 (acquireInit ps)).printerState =
        PState.stopped) ∧
    (∀ fuel, (∀ j, j < fuel → openOk j = false) →
      (acquireLoop openOk fuel 0 (acquireInit ps)).device = false ∧
      (acquireLoop openOk fuel 0 (acquireInit ps)).sleepCount = fuel ∧
      (acquireLoop openOk fuel 0 (acquireInit ps)).logCount ≤ 1) := by
  have hrun := acquireLoop_run openOk k 0 (acquireInit ps) rfl
    (by simpa using hfail) (by simpa using hsucc)
  have hd : (jobProcessAcquire openOk (k + 1) ps).device =
      (acquireLoop openOk (k + 1) 0 (acquireInit ps)).device := rfl
  have hl : (jobProcessAcquire openOk (k + 1) ps).logCount =
      (acquireLoop openOk (k + 1) 0 (acquireInit ps)).logCount := rfl
  have hs : (jobProcessAcquire openOk (k + 1) ps).sleepCount =
      (acquireLoop openOk (k + 1) 0 (acquireInit ps)).sleepCount := rfl
  refine ⟨?_, ?_, ?_, ?_, ?_, ?_⟩
  · rw [hd, hrun]
  · simp [jobProcessAcquire]
  · rw [hl, hrun]
    simp [acquireInit]
  · rw [hs, hrun]
    simp [acquireInit]
  · intro hk
    rw [hrun]
    simp [acquireInit, hk]
  · intro fuel hf
    obtain ⟨h1, h2, h3⟩ := acquireLoop_all_fail openOk fuel 0 (acquireInit ps)
      rfl (by simpa using hf)
    refine ⟨h1, by simpa [acquireInit] using h2, ?_⟩
    rw [h3]
    simp [acquireInit]
    split <;> omega

theorem jobProcess_device_retry_correct_witness :
    (∀ j, j < 2 → (fun n => decide (n = 2)) j = false) ∧
    ((fun n => decide (n = 2)) 2 = true) ∧
    ((jobProcessAcquire (fun n => decide (n = 2)) 3 PState.idle).device = true ∧
     (jobProcessAcquire (fun n => decide (n = 2)) 3 PState.idle).printerState =
       PState.processing ∧
     (jobProcessAcquire (fun n => decide (n = 2)) 3 PState.idle).logCount =
       (if 2 = 0 then 0 else 1) ∧
     (jobProcessAcquire (fun n => decide (n = 2)) 3 PState.idle).sleepCount = 2 ∧
     (2 ≠ 0 →
       (acquireLoop (fun n => decide (n = 2)) 3 0
         (acquireInit PState.idle)).printerState = PState.stopped) ∧
     (∀ fuel, (∀ j, j < fuel → (fun n => decide (n = 2)) j = false) →
       (acquireLoop (fun n => decide (n = 2)) fuel 0
         (acquireInit PState.idle)).device = false ∧
       (acquireLoop (fun n => decide (n = 2)) fuel 0
         (acquireInit PState.idle)).sleepCount = fuel ∧
       (acquireLoop (fun n => decide (n = 2)) fuel 0
         (acquireInit PState.idle)).logCount ≤ 1)) :=
  have h1 : ∀ j, j < 2 → (fun n => decide (n = 2)) j = false := by
    intro j hj; interval_cases j <;> rfl
  ⟨h1, rfl, jobProcess_device_retry_correct (fun n => decide (n = 2)) 2
    PState.idle h1 rfl⟩

/-- Appending one name introduces a duplicate exactly when the list had
one already or the new name collides with an existing one. -/
theorem hasDupNameCI_append_single (l : List String) (n : String) :
    hasDupNameCI (l ++ [n]) =
      (hasDupNameCI l || l.any (fun m => nameEqCI m n)) := by
  induction l with
  | nil => simp [hasDupNameCI]
  | cons x rest ih =>
    simp [hasDupNameCI, ih, List.any_append, Bool.or_comm, Bool.or_left_comm,
      Bool.or_assoc]

/-- C7 counterexample: the preset edit operation renames a preset with
no uniqueness check, so it can produce two presets of one printer with
the same name — the "at all times no two presets share a name"
consequence claimed for the create/copy checks does not hold. -/
theorem presetEdit_duplicate_cx :
    hasDupNameCI ["fast-draft", "normal"] = false ∧
    presetEditRename ["fast-draft", "normal"] "normal" "fast-draft" =
      ["fast-draft", "fast-draft"] ∧
    hasDupNameCI
      (presetEditRename ["fast-draft", "normal"] "normal" "fast-draft") =
      true := by
  refine ⟨by decide, by decide, by decide⟩

/-- C7 (amended): creating a preset — directly or via copy — whose name
matches an existing preset of the printer (case-insensitively) fails
with the name-conflict status and leaves the preset collection
unchanged; create and copy preserve name-uniqueness.  (The edit
operation, by contrast, renames without any check.) -/
theorem preset_create_copy_unique (names : List String) (n : String) :
    (names.any (fun m => nameEqCI m n) = true →
      presetCreate names n = (names, true) ∧
      presetCopy names n = (names, true)) ∧
    (names.any (fun m => nameEqCI m n) = false →
      presetCreate names n = (names ++ [n], false)) ∧
    (hasDupNameCI names = false →
      hasDupNameCI (presetCreate names n).1 = false ∧
      hasDupNameCI (presetCopy names n).1 = false) := by
  refine ⟨?_, ?_, ?_⟩
  · intro h
    constructor <;> simp [presetCreate, presetCopy, h]
  · intro h
    simp [presetCreate, h]
  · intro hdup
    by_cases h : names.any (fun m => nameEqCI m n)
    · constructor <;> simp [presetCreate, presetCopy, h, hdup]
    · constructor <;>
        simp [presetCreate, presetCopy, h, hasDupNameCI_append_single, hdup]

theorem preset_create_copy_unique_witness :
    (["fast-draft"].any (fun m => nameEqCI m "Fast-Draft") = true ∧
      (["fast-draft"].any (fun m => nameEqCI m "Fast-Draft") = true →
        presetCreate ["fast-draft"] "Fast-Draft" = (["fast-draft"], true) ∧
        presetCopy ["fast-draft"] "Fast-Draft" = (["fast-draft"], true))) ∧
    (hasDupNameCI ["fast-draft"] = false ∧
      (hasDupNameCI ["fast-draft"] = false →
        hasDupNameCI (presetCreate ["fast-draft"] "Fast-Draft").1 = false ∧
        hasDupNameCI (presetCopy ["fast-draft"] "Fast-Draft").1 = false)) :=
  ⟨⟨by decide, (preset_create_copy_unique ["fast-draft"] "Fast-Draft").1⟩,
   ⟨by decide, (preset_create_copy_unique ["fast-draft"] "Fast-Draft").2.2⟩⟩

/-! ## Printer creation: resource path and job limits
(printer.c `papplPrinterCreate` lines 844-905, 951-956) -/

/-- Byte-equality of strings-as-char-lists (C `strcmp` equality). -/
def strEq (a b : List Char) : Bool := a == b

/-- One step of the reserved-character replacement of `papplPrinterCreate`
(printer.c lines 854-859): bytes `≤ ' '` and the set
`DEL / \ ' " ? #` become underscores. -/
def sanitizeChar (c : Char) : Char :=
  if c.toNat ≤ 32 || [127, 47, 92, 39, 34, 63, 35].contains c.toNat then
    Char.ofNat 95
  else c

/-- The duplicate/trailing-underscore elimination loop of
`papplPrinterCreate` (printer.c lines 861-872). -/
def collapseU : List Char → List Char
  | [] => []
  | [c] => if c = Char.ofNat 95 then [] else [c]
  | c :: d :: rest =>
    if c = Char.ofNat 95 && d = Char.ofNat 95 then collapseU (d :: rest)
    else c :: collapseU (d :: rest)

/-- Name sanitization applied to the part of the resource path after
`"/ipp/print/"`: a leading digit gets an underscore prefix, reserved
bytes are replaced, and underscore runs are collapsed with a trailing
underscore stripped (printer.c lines 847-872). -/
def sanitizeResName (name : List Char) : List Char :=
  let pre := match name with
    | c :: _ => if c.isDigit then Char.ofNat 95 :: name else name
    | [] => name
  collapseU (pre.map sanitizeChar)

/-- Initial resource path chosen by `papplPrinterCreate`: the sanitized
per-printer path in multi-queue mode, the fixed `"/ipp/print"`
otherwise (printer.c lines 845-875). -/
def printerResource (multi : Bool) (name : List Char) : List Char :=
  if multi then "/ipp/print/".data ++ sanitizeResName name
  else "/ipp/print".data

/-- `papplSystemFindPrinter` by resource path over the system's
printer set, returning the owner's name. -/
def findPrinterByRes (printers : List (List Char × List Char))
    (res : List Char) : Option (List Char) :=
  (printers.find? (fun p => strEq p.1 res)).map (fun p => p.2)

/-- The `"%s_%d"` suffixed resource path tried for n = 2..9. -/
def suffixedRes (res : List Char) (n : Nat) : List Char :=
  res ++ [Char.ofNat 95, Char.ofNat (48 + n)]

/-- The collision-resolution block of `papplPrinterCreate` (printer.c
lines 877-905), which runs in both single- and multi-queue modes: if a
printer already owns the resource path, an identical name is `EEXIST`;
otherwise `_2` through `_9` are tried in order and the first free
suffix is used; exhaustion is `EEXIST`. -/
def resolveCollision (printers : List (List Char × List Char))
    (res name : List Char) : Option (List Char) :=
  match findPrinterByRes printers res with
  | none => some res
  | some exName =>
    if strEq exName name then none
    else
      match (List.range' 2 8).find?
          (fun n => (findPrinterByRes printers (suffixedRes res n)).isNone) with
      | some n => some (suffixedRes res n)
      | none => none

/-- Resource path and `max_active_jobs` produced by a call to
`papplPrinterCreate` (`none` = creation fails with `EEXIST`);
`max_active_jobs` is 0 (unlimited) for multi-queue systems and 1
otherwise (printer.c line 955). -/
def papplPrinterCreateModel (printers : List (List Char × List Char))
    (multi : Bool) (name : List Char) : Option (List Char × Nat) :=
  match resolveCollision printers (printerResource multi name) name with
  | some res => some (res, if multi then 0 else 1)
  | none => none

/-! ## Preset state-file loader
(printer.c `papplPresetAdd` lines 357-576, `read_line` lines 74-105) -/

/-- A line of the preset state file after `read_line` has split it:
an opener `"<Preset id=… name=…>"` (with `parseOk` the outcome of the
`cupsParseOptions`/id/name validation on its value part), the closer
`"</Preset>"`, or any other line (attribute or junk — the loader
recognizes some and silently ignores the rest, which does not affect
which presets get added). -/
inductive PresetLine where
  | opener (parseOk : Bool) (name : String)
  | closer
  | other (s : String)
deriving DecidableEq, Repr

mutual
/-- Outer `while (read_line(...))` of `papplPresetAdd`: non-opener
lines are skipped; a well-formed opener enters the attribute scan; a
malformed opener executes `break`, terminating the whole loader. -/
def loadPresets : List PresetLine → List String
  | [] => []
  | PresetLine.opener ok name :: rest =>
    if ok then scanPresetBody name rest else []
  | PresetLine.closer :: rest => loadPresets rest
  | PresetLine.other _ :: rest => loadPresets rest

/-- Inner attribute loop of `papplPresetAdd`: lines are consumed until
`"</Preset>"`, at which point `_papplSystemAddPreset` appends the
preset and control returns to the outer loop; reaching end of file
inside a preset body adds nothing. -/
def scanPresetBody (name : String) : List PresetLine → List String
  | [] => []
  | PresetLine.closer :: rest => name :: loadPresets rest
  | PresetLine.opener _ _ :: rest => scanPresetBody name rest
  | PresetLine.other _ :: rest => scanPresetBody name rest
end

/-- `papplPrinterCreate` (printer.c line 1172) calls `papplPresetAdd`
unconditionally and continues regardless of the file's content: the
loader has no error path back into printer creation.  The `Bool` is
"creation proceeded past preset loading". -/
def printerCreateLoadsPresets (file : List PresetLine) :
    Bool × List String :=
  (true, loadPresets file)

/-- C10 counterexample: on a single-queue system that already has a
printer (necessarily at `"/ipp/print"`) with a different name, a
successful `papplPrinterCreate` call yields the suffixed resource path
`"/ipp/print_2"` — the `_2.._9` collision suffixes are not restricted
to multi-queue mode. -/
theorem printerCreate_suffix_cx :
    papplPrinterCreateModel [("/ipp/print".data, ['A'])] false ['B'] =
      some ("/ipp/print_2".data, 1) ∧
    "/ipp/print_2".data ≠ "/ipp/print".data := by
  refine ⟨by decide, by decide⟩

/-- C10 (amended): in single-queue mode the initial resource path is the
fixed `"/ipp/print"` regardless of the printer name (name sanitization
applies only in multi-queue mode) and, when that path is free, it is the
one used; however the `_2.._9` collision suffixes apply in both modes,
and a successful single-queue create can return a suffixed path.
`max_active_jobs` is 1 on single-queue systems and 0 on multi-queue
systems. -/
theorem printerCreate_resource_maxjobs
    (printers : List (List Char × List Char)) (name : List Char) :
    printerResource false name = "/ipp/print".data ∧
    (∀ res m, papplPrinterCreateModel printers false name = some (res, m) →
      m = 1 ∧ (res = "/ipp/print".data ∨
        ∃ n, 2 ≤ n ∧ n < 10 ∧ res = suffixedRes "/ipp/print".data n)) ∧
    (findPrinterByRes printers "/ipp/print".data = none →
      papplPrinterCreateModel printers false name =
        some ("/ipp/print".data, 1)) ∧
    (∀ res m, papplPrinterCreateModel printers true name = some (res, m) →
      m = 0) := by
  refine ⟨rfl, ?_, ?_, ?_⟩
  · intro res m h
    simp only [papplPrinterCreateModel, printerResource, Bool.false_eq_true,
      if_false, resolveCollision] at h
    rcases hf : findPrinterByRes printers "/ipp/print".data with _ | exName
    · rw [hf] at h
      simp at h
      exact ⟨h.2.symm, Or.inl h.1.symm⟩
    · rw [hf] at h
      by_cases he : strEq exName name
      · simp [he] at h
      · simp only [he, Bool.false_eq_true, if_false] at h
        rcases hn : (List.range' 2 8).find?
            (fun n => (findPrinterByRes printers
              (suffixedRes "/ipp/print".data n)).isNone) with _ | n
        · rw [hn] at h; simp at h
        · rw [hn] at h
          simp at h
          have hmem := List.mem_of_find?_eq_some hn
          have hrange : 2 ≤ n ∧ n < 10 := by
            have := List.mem_range'_1.mp hmem
            omega
          exact ⟨h.2.symm, Or.inr ⟨n, hrange.1, hrange.2, h.1.symm⟩⟩
  · intro hf
    simp [papplPrinterCreateModel, printerResource, resolveCollision, hf]
  · intro res m h
    simp only [papplPrinterCreateModel] at h
    rcases hr : resolveCollision printers (printerResource true name) name
        with _ | r
    · rw [hr] at h; simp at h
    · rw [hr] at h; simp at h; exact h.2.symm

theorem printerCreate_resource_maxjobs_witness :
    printerResource false ['A'] = "/ipp/print".data ∧
    findPrinterByRes ([] : List (List Char × List Char))
      "/ipp/print".data = none ∧
    papplPrinterCreateModel [] false ['A'] =
      some ("/ipp/print".data, 1) :=
  ⟨(printerCreate_resource_maxjobs [] ['A']).1, by decide,
    (printerCreate_resource_maxjobs [] ['A']).2.2.1 (by decide)⟩

/-- C9 counterexample: a malformed `<Preset …>` opener executes `break`,
which terminates the whole loading loop — a well-formed preset that
follows it in the file is NOT loaded, so a parse error does not merely
"abort loading of that preset, skipping ahead to the next `<Preset>`
opener". -/
theorem presetLoader_skip_cx :
    loadPresets [PresetLine.opener false "bad",
      PresetLine.opener true "good", PresetLine.closer] = [] ∧
    loadPresets [PresetLine.opener true "good", PresetLine.closer] =
      ["good"] := by
  constructor <;> rfl

/-- C9 (amended): a preset is added only after its `</Preset>` closing
line is seen (a body without a closer adds nothing, and with a closer
the preset is added exactly then); but a line that parses incorrectly
(a malformed `<Preset` opener) aborts loading of that preset AND of all
following file content, rather than skipping to the next opener; a
parse error never aborts the printer's creation. -/
theorem presetLoader_amended :
    (∀ name rest, PresetLine.closer ∉ rest →
      scanPresetBody name rest = []) ∧
    (∀ name body rest, PresetLine.closer ∉ body →
      scanPresetBody name (body ++ PresetLine.closer :: rest) =
        name :: loadPresets rest) ∧
    (∀ name rest,
      loadPresets (PresetLine.opener false name :: rest) = []) ∧
    (∀ file, (printerCreateLoadsPresets file).1 = true) := by
  refine ⟨?_, ?_, fun name rest => rfl, fun file => rfl⟩
  · intro name rest h
    induction rest with
    | nil => rfl
    | cons l rest ih =>
      have h' : PresetLine.closer ∉ rest :=
        fun hm => h (List.mem_cons_of_mem _ hm)
      cases l with
      | closer => exact absurd (List.mem_cons_self _ _) h
      | opener ok nm => simpa [scanPresetBody] using ih h'
      | other s => simpa [scanPresetBody] using ih h'
  · intro name body rest h
    induction body with
    | nil => rfl
    | cons l body ih =>
      have h' : PresetLine.closer ∉ body :=
        fun hm => h (List.mem_cons_of_mem _ hm)
      cases l with
      | closer => exact absurd (List.mem_cons_self _ _) h
      | opener ok nm => simpa [scanPresetBody] using ih h'
      | other s => simpa [scanPresetBody] using ih h'

theorem presetLoader_amended_witness :
    (PresetLine.closer ∉ [PresetLine.other "print-quality-default draft 1"] ∧
      scanPresetBody "fast-draft"
        [PresetLine.other "print-quality-default draft 1"] = []) ∧
    (scanPresetBody "fast-draft"
        ([PresetLine.other "print-quality-default draft 1"] ++
          PresetLine.closer :: []) = ["fast-draft"]) ∧
    loadPresets [PresetLine.opener false "bad"] = [] ∧
    (printerCreateLoadsPresets [PresetLine.opener false "bad"]).1 = true :=
  ⟨⟨by decide, presetLoader_amended.1 "fast-draft" _ (by decide)⟩,
    presetLoader_amended.2.1 "fast-draft"
      [PresetLine.other "print-quality-default draft 1"] [] (by decide),
    presetLoader_amended.2.2.1 "bad" [],
    presetLoader_amended.2.2.2 _⟩

/-! ## `job-presets-supported` publication and edit
(printer.c lines 1200-1227, printer-webif.c `funct` lines 1935-1990) -/

/-- Byte-equality of Lean strings (C `strcmp` equality). -/
def strEqS (a b : String) : Bool := a.data == b.data

/-- IPP value tags used by the job processor (`ipp_tag_t` subset;
`zero` is the wildcard `IPP_TAG_ZERO`). -/
inductive VTag where
  | integer | enum | keyword | resolution | collection | text | nameTag | zero
deriving DecidableEq, Repr

/-- A typed IPP attribute; all reads in `prepare_options` use value
index 0, so a single value of each shape suffices. -/
structure IppAttr where
  name : String
  tag : VTag
  intVal : Int := 0
  strVal : String := ""
  resVal : Int × Int := (0, 0)
  colVal : Nat := 0
deriving DecidableEq, Repr

/-- `ippFindAttribute` tag acceptance: `IPP_TAG_ZERO` matches any tag,
otherwise the tags must agree. -/
def tagMatches (want actual : VTag) : Bool :=
  want == VTag.zero || want == actual

/-- `ippFindAttribute`: first attribute with the given name whose tag is
accepted. -/
def ippFindAttribute (attrs : List IppAttr) (nm : String) (tag : VTag) :
    Option IppAttr :=
  attrs.find? (fun a => strEqS a.name nm && tagMatches tag a.tag)

/-- The three attribute stores consulted by `find_attr`. -/
structure AttrEnv where
  jobAttrs : List IppAttr
  printerAttrs : List IppAttr
  driverAttrs : List IppAttr
deriving Repr

/-- Embedding of `find_attr` (job-process.c lines 184-201): the job's
attribute named `nm`, then the printer's `nm ++ "-default"`, then the
driver attributes' `nm ++ "-default"`. -/
def find_attr (env : AttrEnv) (nm : String) (tag : VTag) : Option IppAttr :=
  match ippFindAttribute env.jobAttrs nm tag with
  | some attr => some attr
  | none =>
    match ippFindAttribute env.printerAttrs (nm ++ "-default") tag with
    | some attr => some attr
    | none => ippFindAttribute env.driverAttrs (nm ++ "-default") tag

/-- The spec's wording of the lookup: "`lookup(name, tag)` returning the
first hit in (job.attrs, printer.attrs under `xxx-default`, driver_attrs
under `xxx-default`)" — for comparison with `find_attr`. -/
def threeLevelLookup (env : AttrEnv) (nm : String) (tag : VTag) :
    Option IppAttr :=
  (ippFindAttribute env.jobAttrs nm tag).orElse fun _ =>
    (ippFindAttribute env.printerAttrs (nm ++ "-default") tag).orElse fun _ =>
      ippFindAttribute env.driverAttrs (nm ++ "-default") tag

/-- `pappl_media_col_t`. -/
structure MediaCol where
  sizeName : String := ""
  sizeWidth : Int := 0
  sizeLength : Int := 0
  source : String := ""
  bottomMargin : Int := 0
  leftMargin : Int := 0
  rightMargin : Int := 0
  topMargin : Int := 0
deriving DecidableEq, Repr

/-- The slice of `pappl_driver_data_t` read by `prepare_options`. -/
structure DriverData where
  mediaDefault : MediaCol
  numSource : Nat
  sourceNames : List String
  mediaReady : List MediaCol
  speedDefault : Int
  xResolution : List Int
  yResolution : List Int
  numResolution : Nat
deriving Repr

/-- External CUPS helpers called by `prepare_options`
(`_papplMediaColImport`, `pwgMediaForPWG` width/length lookup,
`_papplColorModeValue`); they are parameters of the embedding. -/
structure CupsExternals where
  mediaColImport : Nat → MediaCol → MediaCol
  pwgMediaForPWG : String → Int × Int
  colorModeValue : String → Nat

/-- `ipp_orient_t` / `ipp_quality_t` values used as defaults. -/
def ippOrientNoneVal : Int := 7

def ippQualityDraftVal : Int := 3

def ippQualityNormalVal : Int := 4

def papplColorModeBiLevel : Nat := 1

/-- The fields of `pappl_options_t` filled by `prepare_options` (the
raster header is produced by the external `cupsRasterInitPWGHeader`
from `media.size_name` and the resolution and is not modelled). -/
structure Options where
  numPages : Nat
  copies : Int
  media : MediaCol
  orientationRequested : Int
  printColorMode : Nat
  printContentOptimize : String
  printDarkness : Int
  printQuality : Int
  printSpeed : Int
  printerResolution : Int × Int
deriving DecidableEq, Repr

/-- Embedding of `prepare_options` (job-process.c lines 208-373): every
recognized option is resolved through `find_attr` with the source's
name/tag pair and falls back to the source's default. -/
def prepare_options (ext : CupsExternals) (dd : DriverData) (env : AttrEnv)
    (numPages : Nat) : Options :=
  let copies : Int :=
    match find_attr env "copies" VTag.integer with
    | some a => a.intVal
    | none => 1
  let media0 :=
    match find_attr env "media-col" VTag.collection with
    | some a => ext.mediaColImport a.colVal { dd.mediaDefault with source := "" }
    | none =>
      match find_attr env "media" VTag.zero with
      | some a =>
        let wl := ext.pwgMediaForPWG a.strVal
        { dd.mediaDefault with
            sizeName := a.strVal
            sizeWidth := wl.1
            sizeLength := wl.2
            source := "" }
      | none => dd.mediaDefault
  let media :=
    if media0.source = "" then
      let src :=
        match ((dd.mediaReady.zip dd.sourceNames).take dd.numSource).find?
            (fun p => strEqS media0.sizeName p.1.sizeName) with
        | some p => p.2
        | none => ""
      { media0 with
          source := if src = "" then dd.mediaDefault.source else src }
    else media0
  let quality : Int :=
    match find_attr env "print-quality" VTag.enum with
    | some a => a.intVal
    | none => ippQualityNormalVal
  let resolution : Int × Int :=
    match find_attr env "printer-resolution" VTag.resolution with
    | some a => a.resVal
    | none =>
      if quality = ippQualityDraftVal then
        (dd.xResolution.getD 0 0, dd.yResolution.getD 0 0)
      else if quality = ippQualityNormalVal then
        (dd.xResolution.getD (dd.numResolution / 2) 0,
         dd.yResolution.getD (dd.numResolution / 2) 0)
      else
        (dd.xResolution.getD (dd.numResolution - 1) 0,
         dd.yResolution.getD (dd.numResolution - 1) 0)
  { numPages := numPages
    copies := copies
    media := media
    orientationRequested :=
      match find_attr env "orientation-requested" VTag.enum with
      | some a => a.intVal
      | none => ippOrientNoneVal
    printColorMode :=
      match find_attr env "print-color-mode" VTag.keyword with
      | some a => ext.colorModeValue a.strVal
      | none => papplColorModeBiLevel
    printContentOptimize :=
      match find_attr env "print-content-optimize" VTag.keyword with
      | some a => a.strVal
      | none => "auto"
    printDarkness :=
      match find_attr env "print-darkness" VTag.integer with
      | some a => a.intVal
      | none => 0
    printQuality := quality
    printSpeed :=
      match find_attr env "print-speed" VTag.integer with
      | some a => a.intVal
      | none => dd.speedDefault
    printerResolution := resolution }

/-- The (name, tag) pairs `prepare_options` passes to `find_attr`. -/
def recognizedOptions : List (String × VTag) :=
  [("copies", VTag.integer), ("media-col", VTag.collection),
   ("media", VTag.zero), ("orientation-requested", VTag.enum),
   ("print-color-mode", VTag.keyword),
   ("print-content-optimize", VTag.keyword),
   ("print-darkness", VTag.integer), ("print-quality", VTag.enum),
   ("print-speed", VTag.integer), ("printer-resolution", VTag.resolution)]

/-- Sample environment for exercising the option lookup. -/
def sampleAttrEnv : AttrEnv :=
  { jobAttrs := [{ name := "copies", tag := VTag.integer, intVal := 2 }]
    printerAttrs :=
      [{ name := "print-quality-default", tag := VTag.enum, intVal := 3 }]
    driverAttrs :=
      [{ name := "print-speed-default", tag := VTag.integer, intVal := 10 }] }

/-- Sample CUPS externals (identity-ish stand-ins). -/
def sampleExternals : CupsExternals :=
  { mediaColImport := fun _ m => m
    pwgMediaForPWG := fun _ => (21590, 27940)
    colorModeValue := fun _ => 0 }

/-- Sample driver data. -/
def sampleDriverData : DriverData :=
  { mediaDefault := { sizeName := "na_letter_8.5x11in", source := "main" }
    numSource := 1
    sourceNames := ["main"]
    mediaReady := [{ sizeName := "na_letter_8.5x11in", source := "main" }]
    speedDefault := 0
    xResolution := [203]
    yResolution := [203]
    numResolution := 1 }

/-- C4: `find_attr` returns the first hit of the job-attribute /
printer-default / driver-default chain (it coincides with the spec's
three-level `orElse` lookup), and `prepare_options` resolves every
recognized option only through `find_attr`: two environments giving the
same `find_attr` answers on the recognized (name, tag) pairs produce
identical options. -/
theorem prepare_options_via_find_attr (env : AttrEnv) :
    (∀ nm tag, find_attr env nm tag = threeLevelLookup env nm tag) ∧
    (∀ (ext : CupsExternals) (dd : DriverData) (numPages : Nat)
        (env2 : AttrEnv),
      (∀ p ∈ recognizedOptions,
        find_attr env p.1 p.2 = find_attr env2 p.1 p.2) →
      prepare_options ext dd env numPages =
        prepare_options ext dd env2 numPages) := by
  constructor
  · intro nm tag
    rw [find_attr, threeLevelLookup]
    cases ippFindAttribute env.jobAttrs nm tag <;>
      cases ippFindAttribute env.printerAttrs (nm ++ "-default") tag <;>
        simp [Option.orElse]
  · intro ext dd n env2 h
    have h1 : find_attr env "copies" VTag.integer =
        find_attr env2 "copies" VTag.integer :=
      h ("copies", VTag.integer) (by simp [recognizedOptions])
    have h2 : find_attr env "media-col" VTag.collection =
        find_attr env2 "media-col" VTag.collection :=
      h ("media-col", VTag.collection) (by simp [recognizedOptions])
    have h3 : find_attr env "media" VTag.zero =
        find_attr env2 "media" VTag.zero :=
      h ("media", VTag.zero) (by simp [recognizedOptions])
    have h4 : find_attr env "orientation-requested" VTag.enum =
        find_attr env2 "orientation-requested" VTag.enum :=
      h ("orientation-requested", VTag.enum) (by simp [recognizedOptions])
    have h5 : find_attr env "print-color-mode" VTag.keyword =
        find_attr env2 "print-color-mode" VTag.keyword :=
      h ("print-color-mode", VTag.keyword) (by simp [recognizedOptions])
    have h6 : find_attr env "print-content-optimize" VTag.keyword =
        find_attr env2 "print-content-optimize" VTag.keyword :=
      h ("print-content-optimize", VTag.keyword) (by simp [recognizedOptions])
    have h7 : find_attr env "print-darkness" VTag.integer =
        find_attr env2 "print-darkness" VTag.integer :=
      h ("print-darkness", VTag.integer) (by simp [recognizedOptions])
    have h8 : find_attr env "print-quality" VTag.enum =
        find_attr env2 "print-quality" VTag.enum :=
      h ("print-quality", VTag.enum) (by simp [recognizedOptions])
    have h9 : find_attr env "print-speed" VTag.integer =
        find_attr env2 "print-speed" VTag.integer :=
      h ("print-speed", VTag.integer) (by simp [recognizedOptions])
    have h10 : find_attr env "printer-resolution" VTag.resolution =
        find_attr env2 "printer-resolution" VTag.resolution :=
      h ("printer-resolution", VTag.resolution) (by simp [recognizedOptions])
    simp only [prepare_options, h1, h2, h3, h4, h5, h6, h7, h8, h9, h10]

theorem prepare_options_via_find_attr_witness :
    (find_attr sampleAttrEnv "print-quality" VTag.enum =
      threeLevelLookup sampleAttrEnv "print-quality" VTag.enum) ∧
    ((∀ p ∈ recognizedOptions,
        find_attr sampleAttrEnv p.1 p.2 = find_attr sampleAttrEnv p.1 p.2) ∧
      prepare_options sampleExternals sampleDriverData sampleAttrEnv 1 =
        prepare_options sampleExternals sampleDriverData sampleAttrEnv 1) :=
  ⟨(prepare_options_via_find_attr sampleAttrEnv).1 "print-quality" VTag.enum,
    fun _ _ => rfl,
    (prepare_options_via_find_attr sampleAttrEnv).2 sampleExternals
      sampleDriverData 1 sampleAttrEnv (fun _ _ => rfl)⟩

/-! ## Raster streaming (job-process.c `process_raster` lines 695-785) -/

/-- One page of the input raster stream: the header's height and the
pixel lines actually available (fewer than `height` models a short
read from `cupsRasterReadPixels`). -/
structure RasterPage where
  height : Nat
  lines : Nat
deriving DecidableEq, Repr

/-- The raster input: whether `open(2)` and `cupsRasterOpen` succeed,
and the sequence of page headers the stream yields. -/
structure RasterInput where
  openOk : Bool
  rasOk : Bool
  pages : List RasterPage
deriving Repr

/-- Driver raster callbacks as boolean oracles (`process_raster` never
examines `rwrite`'s result, but the oracle is part of the run). -/
structure RasterCbs where
  rstartjob : Bool
  rstartpage : Nat → Bool
  rwrite : Nat → Nat → Bool
  rendpage : Nat → Bool
  rendjob : Bool

/-- Driver-callback invocations, in order. -/
inductive REv where
  | startjob
  | startpage (page : Nat)
  | write (page y : Nat)
  | endpage (page : Nat)
  | endjob
deriving DecidableEq, Repr

/-- Outcome of `process_raster`: whether the job was aborted
(`job->state = IPP_JSTATE_ABORTED`), the callback trace, and which
resources were opened/closed. -/
structure RasterResult where
  aborted : Bool
  trace : List REv
  fdOpened : Bool
  fdClosed : Bool
  rasOpened : Bool
  rasClosed : Bool
deriving Repr

/-- The page loop of `process_raster` (job-process.c lines 736-766):
`rstartpage`; read up to `height` lines, passing each to `rwrite`
whose result is ignored; `rendpage`; on a short read log, call
`rendjob` and abort; otherwise continue while another header can be
read.  Returns the callback events and whether `abort_job` was
reached. -/
def rasterPages (cbs : RasterCbs) :
    List RasterPage → Nat → List REv × Bool
  | [], _ => ([], false)
  | pg :: rest, page =>
    if cbs.rstartpage page = false then ([REv.startpage page], true)
    else
      let nRead := min pg.height pg.lines
      let writes := (List.range nRead).map (fun y => REv.write page y)
      if cbs.rendpage page = false then
        (REv.startpage page :: writes ++ [REv.endpage page], true)
      else if nRead < pg.height then
        (REv.startpage page :: writes ++ [REv.endpage page, REv.endjob], true)
      else
        let r := rasterPages cbs rest (page + 1)
        (REv.startpage page :: writes ++ REv.endpage page :: r.1, r.2)

/-- Embedding of `process_raster` (job-process.c lines 695-785):
open the file and the raster stream, read the first header, run
`rstartjob`, loop over the pages, run `rendjob`, and on `abort_job`
close whatever was opened and set the aborted state. -/
def process_raster (inp : RasterInput) (cbs : RasterCbs) : RasterResult :=
  if inp.openOk = false then
    { aborted := true, trace := [], fdOpened := false, fdClosed := false,
      rasOpened := false, rasClosed := false }
  else if inp.rasOk = false then
    { aborted := true, trace := [], fdOpened := true, fdClosed := true,
      rasOpened := false, rasClosed := false }
  else if inp.pages = [] then
    { aborted := true, trace := [], fdOpened := true, fdClosed := true,
      rasOpened := true, rasClosed := true }
  else if cbs.rstartjob = false then
    { aborted := true, trace := [REv.startjob], fdOpened := true,
      fdClosed := true, rasOpened := true, rasClosed := true }
  else
    let r := rasterPages cbs inp.pages 1
    if r.2 then
      { aborted := true, trace := REv.startjob :: r.1, fdOpened := true,
        fdClosed := true, rasOpened := true, rasClosed := true }
    else if cbs.rendjob = false then
      { aborted := true, trace := REv.startjob :: r.1 ++ [REv.endjob],
        fdOpened := true, fdClosed := true, rasOpened := true,
        rasClosed := true }
    else
      { aborted := false, trace := REv.startjob :: r.1 ++ [REv.endjob],
        fdOpened := true, fdClosed := true, rasOpened := true,
        rasClosed := true }

/-- Success of the per-page callbacks and reads: `rstartpage` and
`rendpage` return true for every page and no page is short. -/
def rasterPagesOk (cbs : RasterCbs) : List RasterPage → Nat → Bool
  | [], _ => true
  | pg :: rest, page =>
    cbs.rstartpage page && decide (pg.height ≤ pg.lines) &&
      cbs.rendpage page && rasterPagesOk cbs rest (page + 1)

/-- The page loop aborts exactly when some page's `rstartpage` or
`rendpage` fails or a short read occurs — never because of `rwrite`. -/
theorem rasterPages_abort_iff (cbs : RasterCbs) :
    ∀ (pages : List RasterPage) (page : Nat),
    (rasterPages cbs pages page).2 = !(rasterPagesOk cbs pages page) := by
  intro pages
  induction pages with
  | nil => intro page; rfl
  | cons pg rest ih =>
    intro page
    rw [rasterPages, rasterPagesOk]
    by_cases hsp : cbs.rstartpage page
    · by_cases hep : cbs.rendpage page
      · by_cases hshort : min pg.height pg.lines < pg.height
        · have : ¬ pg.height ≤ pg.lines := by omega
          simp [hsp, hep, hshort, this]
        · have : pg.height ≤ pg.lines := by omega
          simp [hsp, hep, hshort, this, ih]
      · simp [hsp, hep]
    · simp [hsp]

/-- With all page callbacks succeeding, a short page makes the loop
call `rendjob` (it appears in the trace) before aborting. -/
theorem rasterPages_short_calls_endjob (cbs : RasterCbs)
    (hsp : ∀ p, cbs.rstartpage p = true)
    (hep : ∀ p, cbs.rendpage p = true) :
    ∀ (pages : List RasterPage) (page : Nat),
    rasterPagesOk cbs pages page = false →
    REv.endjob ∈ (rasterPages cbs pages page).1 := by
  intro pages
  induction pages with
  | nil => intro page h; simp [rasterPagesOk] at h
  | cons pg rest ih =>
    intro page h
    rw [rasterPagesOk] at h
    rw [rasterPages]
    simp only [hsp, hep] at h ⊢
    by_cases hshort : min pg.height pg.lines < pg.height
    · have : ¬ pg.height ≤ pg.lines := by omega
      simp [hshort, this]
    · have hfull : pg.height ≤ pg.lines := by omega
      have hrest : rasterPagesOk cbs rest (page + 1) = false := by
        simpa [hfull] using h
      simp only [Bool.false_eq_true, if_false, hshort]
      simp [ih (page + 1) hrest]

/-- A complete one-page raster stream. -/
def rasterInputFull : RasterInput :=
  { openOk := true
    rasOk := true
    pages := [{ height := 1, lines := 1 }] }

/-- A raster stream whose single page is short by one line. -/
def rasterInputShort : RasterInput :=
  { openOk := true
    rasOk := true
    pages := [{ height := 1, lines := 0 }] }

/-- Callbacks that all succeed except `rwrite`, which always fails. -/
def rasterCbsNoWrite : RasterCbs :=
  { rstartjob := true
    rstartpage := fun _ => true
    rwrite := fun _ _ => false
    rendpage := fun _ => true
    rendjob := true }

/-- Callbacks that all succeed. -/
def rasterCbsAllOk : RasterCbs :=
  { rstartjob := true
    rstartpage := fun _ => true
    rwrite := fun _ _ => true
    rendpage := fun _ => true
    rendjob := true }

/-- C5 counterexample: with a complete one-page raster stream and a
driver whose `rwrite` always returns false (but whose other callbacks
succeed), `process_raster` calls `rwrite` and still does NOT abort:
the return value of the `rwrite` callback is ignored
(job-process.c line 749). -/
theorem process_raster_rwrite_cx :
    (process_raster rasterInputFull rasterCbsNoWrite).aborted = false ∧
    REv.write 1 0 ∈ (process_raster rasterInputFull rasterCbsNoWrite).trace ∧
    rasterCbsNoWrite.rwrite 1 0 = false := by
  refine ⟨by decide, by decide, rfl⟩

/-- C5 (amended): `process_raster` aborts exactly when the open, the
raster stream, the first header, `rstartjob`, some page's
`rstartpage`/`rendpage`, a page read, or `rendjob` fails — the result
of `rwrite` plays no role; a short read aborts only after `rendjob`
has been called; and on every exit path the raster stream and the
input file descriptor are closed whenever they were opened. -/
theorem process_raster_aborts (inp : RasterInput) (cbs : RasterCbs) :
    ((process_raster inp cbs).aborted = false ↔
      (inp.openOk = true ∧ inp.rasOk = true ∧ inp.pages ≠ [] ∧
        cbs.rstartjob = true ∧ rasterPagesOk cbs inp.pages 1 = true ∧
        cbs.rendjob = true)) ∧
    ((∀ p, cbs.rstartpage p = true) → (∀ p, cbs.rendpage p = true) →
      cbs.rstartjob = true → inp.openOk = true → inp.rasOk = true →
      inp.pages ≠ [] → rasterPagesOk cbs inp.pages 1 = false →
      (process_raster inp cbs).aborted = true ∧
        REv.endjob ∈ (process_raster inp cbs).trace) ∧
    ((process_raster inp cbs).fdOpened = true →
      (process_raster inp cbs).fdClosed = true) ∧
    ((process_raster inp cbs).rasOpened = true →
      (process_raster inp cbs).rasClosed = true) := by
  refine ⟨?_, ?_, ?_, ?_⟩
  · rw [process_raster]
    by_cases h1 : inp.openOk = false
    · simp [h1]
    · by_cases h2 : inp.rasOk = false
      · simp [h1, h2]
      · by_cases h3 : inp.pages = []
        · simp [h1, h2, h3]
        · by_cases h4 : cbs.rstartjob = false
          · simp [h1, h2, h3, h4]
          · simp only [h1, h2, h3, h4, Bool.false_eq_true, if_false]
            rw [rasterPages_abort_iff]
            by_cases h5 : rasterPagesOk cbs inp.pages 1
            · by_cases h6 : cbs.rendjob = false
              · simp [h5, h6]
              · simp only [h5, Bool.not_true, Bool.false_eq_true, if_false,
                  h6]
                simp_all
            · simp_all
  · intro hsp hep hsj h1 h2 h3 hbad
    rw [process_raster]
    simp only [h1, h2, h3, hsj, Bool.true_eq_false, if_false]
    rw [rasterPages_abort_iff, hbad]
    simp only [Bool.not_false, if_true]
    exact ⟨by simp, List.mem_cons_of_mem _
      (rasterPages_short_calls_endjob cbs hsp hep inp.pages 1 hbad)⟩
  · rw [process_raster]
    by_cases h1 : inp.openOk = false
    · simp [h1]
    · by_cases h2 : inp.rasOk = false
      · simp [h1, h2]
      · by_cases h3 : inp.pages = []
        · simp [h1, h2, h3]
        · by_cases h4 : cbs.rstartjob = false
          · simp [h1, h2, h3, h4]
          · simp only [h1, h2, h3, h4, Bool.false_eq_true, if_false]
            by_cases h5 : (rasterPages cbs inp.pages 1).2 <;>
              by_cases h6 : cbs.rendjob = false <;> simp [h5, h6]
  · rw [process_raster]
    by_cases h1 : inp.openOk = false
    · simp [h1]
    · by_cases h2 : inp.rasOk = false
      · simp [h1, h2]
      · by_cases h3 : inp.pages = []
        · simp [h1, h2, h3]
        · by_cases h4 : cbs.rstartjob = false
          · simp [h1, h2, h3, h4]
          · simp only [h1, h2, h3, h4, Bool.false_eq_true, if_false]
            by_cases h5 : (rasterPages cbs inp.pages 1).2 <;>
              by_cases h6 : cbs.rendjob = false <;> simp [h5, h6]

theorem process_raster_aborts_witness :
    ((process_raster rasterInputShort rasterCbsAllOk).aborted = true ∧
      REv.endjob ∈ (process_raster rasterInputShort rasterCbsAllOk).trace) ∧
    ((process_raster rasterInputShort rasterCbsAllOk).fdOpened = true →
      (process_raster rasterInputShort rasterCbsAllOk).fdClosed = true) :=
  ⟨(process_raster_aborts rasterInputShort rasterCbsAllOk).2.1
      (fun _ => rfl) (fun _ => rfl) rfl rfl rfl (by decide) (by decide),
    (process_raster_aborts rasterInputShort rasterCbsAllOk).2.2.1⟩

/-! ## PNG rendering (job-process.c `process_png` lines 392-688) -/

/-- `ipp_orient_t` values relevant to `process_png` (`orientNone` is
`IPP_ORIENT_NONE`, i.e. automatic). -/
inductive Orient where
  | portrait | reversePortrait | landscape | reverseLandscape | orientNone
deriving DecidableEq, Repr

/-- Auto-orientation (job-process.c lines 477-489): with
`IPP_ORIENT_NONE`, landscape iff the image is wider than tall and the
page is taller than wide, else portrait. -/
def resolveOrientation (o : Orient) (pw ph cupsW cupsH : Nat) : Orient :=
  match o with
  | Orient.orientNone =>
    if pw > ph && cupsW < cupsH then Orient.landscape else Orient.portrait
  | o => o

/-- Per-orientation pixel indexing and fit-scaling, from the `switch`
of `process_png` (job-process.c lines 491-557): `pixbase` is the index
of the first source pixel, stepping output-x adds `xdir` to the index
and stepping output-y adds `ydir`; `pngW`/`pngH` are the rotated
dimensions; the image is fit-scaled into `iwidth × iheight`. -/
structure PngGeom where
  pixbase : Int
  pngW : Nat
  pngH : Nat
  xdir : Int
  ydir : Int
  xsize : Nat
  ysize : Nat
deriving DecidableEq, Repr

def pngGeom (o : Orient) (pw ph iwidth iheight : Nat) : PngGeom :=
  match o with
  | Orient.reversePortrait =>
    let ysize0 := iwidth * ph / pw
    let p := if ysize0 > iheight then (iheight * pw / ph, iheight)
      else (iwidth, ysize0)
    { pixbase := ((pw * ph : Nat) : Int) - 1, pngW := pw, pngH := ph,
      xdir := -1, ydir := -(pw : Int), xsize := p.1, ysize := p.2 }
  | Orient.landscape =>
    let ysize0 := iwidth * pw / ph
    let p := if ysize0 > iheight then (iheight * ph / pw, iheight)
      else (iwidth, ysize0)
    { pixbase := (pw : Int) - 1, pngW := ph, pngH := pw,
      xdir := (pw : Int), ydir := -1, xsize := p.1, ysize := p.2 }
  | Orient.reverseLandscape =>
    let ysize0 := iwidth * pw / ph
    let p := if ysize0 > iheight then (iheight * ph / pw, iheight)
      else (iwidth, ysize0)
    { pixbase := (((ph - 1) * pw : Nat) : Int), pngW := ph, pngH := pw,
      xdir := -(pw : Int), ydir := 1, xsize := p.1, ysize := p.2 }
  | _ =>
    let ysize0 := iwidth * ph / pw
    let p := if ysize0 > iheight then (iheight * pw / ph, iheight)
      else (iwidth, ysize0)
    { pixbase := 0, pngW := pw, pngH := ph,
      xdir := 1, ydir := (pw : Int), xsize := p.1, ysize := p.2 }

/-- `xstart = ileft + (iwidth - xsize) / 2` (job-process.c line 559). -/
def pngXStart (ileft iwidth : Nat) (g : PngGeom) : Nat :=
  ileft + (iwidth - g.xsize) / 2

/-- `ystart = itop + (iheight - ysize) / 2` (job-process.c line 561). -/
def pngYStart (itop iheight : Nat) (g : PngGeom) : Nat :=
  itop + (iheight - g.ysize) / 2

/-- C3: for every orientation and non-zero imageable size, the scaled
size follows the claim's integer arithmetic in terms of the rotated
dimensions — `xsize = iwidth`, `ysize = xsize * pngH / pngW`, reducing
to `ysize = iheight`, `xsize = ysize * pngW / pngH` when `ysize`
exceeds `iheight` — and the image is centered at
`xstart = ileft + (iwidth - xsize) / 2`,
`ystart = itop + (iheight - ysize) / 2`. -/
theorem png_scaling_correct (o : Orient)
    (pw ph iwidth iheight ileft itop : Nat)
    (hpw : 0 < pw) (hph : 0 < ph) (hiw : 0 < iwidth) (hih : 0 < iheight) :
    (if iwidth * (pngGeom o pw ph iwidth iheight).pngH /
        (pngGeom o pw ph iwidth iheight).pngW > iheight then
      (pngGeom o pw ph iwidth iheight).ysize = iheight ∧
      (pngGeom o pw ph iwidth iheight).xsize =
        iheight * (pngGeom o pw ph iwidth iheight).pngW /
          (pngGeom o pw ph iwidth iheight).pngH
    else
      (pngGeom o pw ph iwidth iheight).xsize = iwidth ∧
      (pngGeom o pw ph iwidth iheight).ysize =
        iwidth * (pngGeom o pw ph iwidth iheight).pngH /
          (pngGeom o pw ph iwidth iheight).pngW) ∧
    pngXStart ileft iwidth (pngGeom o pw ph iwidth iheight) =
      ileft + (iwidth - (pngGeom o pw ph iwidth iheight).xsize) / 2 ∧
    pngYStart itop iheight (pngGeom o pw ph iwidth iheight) =
      itop + (iheight - (pngGeom o pw ph iwidth iheight).ysize) / 2 := by
  refine ⟨?_, rfl, rfl⟩
  cases o <;> simp only [pngGeom] <;> split <;> simp_all

theorem png_scaling_correct_witness :
    ((0 : Nat) < 400 ∧ (0 : Nat) < 100 ∧ (0 : Nat) < 1700 ∧
      (0 : Nat) < 2200) ∧
    ((if 1700 * (pngGeom Orient.landscape 400 100 1700 2200).pngH /
          (pngGeom Orient.landscape 400 100 1700 2200).pngW > 2200 then
        (pngGeom Orient.landscape 400 100 1700 2200).ysize = 2200 ∧
        (pngGeom Orient.landscape 400 100 1700 2200).xsize =
          2200 * (pngGeom Orient.landscape 400 100 1700 2200).pngW /
            (pngGeom Orient.landscape 400 100 1700 2200).pngH
      else
        (pngGeom Orient.landscape 400 100 1700 2200).xsize = 1700 ∧
        (pngGeom Orient.landscape 400 100 1700 2200).ysize =
          1700 * (pngGeom Orient.landscape 400 100 1700 2200).pngH /
            (pngGeom Orient.landscape 400 100 1700 2200).pngW) ∧
      pngXStart 100 1700 (pngGeom Orient.landscape 400 100 1700 2200) =
        100 + (1700 - (pngGeom Orient.landscape 400 100 1700 2200).xsize) / 2 ∧
      pngYStart 100 2200 (pngGeom Orient.landscape 400 100 1700 2200) =
        100 + (2200 - (pngGeom Orient.landscape 400 100 1700 2200).ysize) / 2) :=
  ⟨⟨by decide, by decide, by decide, by decide⟩,
    png_scaling_correct Orient.landscape 400 100 1700 2200 100 100
      (by decide) (by decide) (by decide) (by decide)⟩

/-- 32-bit unsigned subtraction, as performed by the imageable-size
computation on `unsigned` values. -/
def u32sub (a b : Nat) : Nat :=
  (a % 4294967296 + 4294967296 - b % 4294967296) % 4294967296

/-- The fixed inputs of one `process_png` rendering (job-process.c
lines 392-688): the decoded 8-bit grayscale buffer, its dimensions,
the requested orientation, the media margins in hundredths of mm, the
resolution, the page geometry from the PWG header, and the dither
matrix.  The dither matrix lives on `options` but its construction is
commented out in the source (job-process.c lines 280-285), so it is an
input here, per the spec's direction to initialize it from the driver
data. -/
structure PngRenderIn where
  pixels : List Nat
  pw : Nat
  ph : Nat
  orient : Orient
  leftMargin : Nat
  rightMargin : Nat
  topMargin : Nat
  bottomMargin : Nat
  xres : Nat
  yres : Nat
  cupsWidth : Nat
  cupsHeight : Nat
  bytesPerLine : Nat
  dither : List (List Nat)
  copies : Nat

/-- `ileft = media.left_margin * xres / 2540` (job-process.c 436). -/
def pngILeft (j : PngRenderIn) : Nat := j.leftMargin * j.xres / 2540

/-- `itop = media.top_margin * yres / 2540` (job-process.c 437). -/
def pngITop (j : PngRenderIn) : Nat := j.topMargin * j.yres / 2540

/-- `iwidth = cupsWidth - (left+right)*xres/2540` in unsigned
arithmetic (job-process.c 438). -/
def pngIWidth (j : PngRenderIn) : Nat :=
  u32sub j.cupsWidth ((j.leftMargin + j.rightMargin) * j.xres / 2540)

/-- `iheight = cupsHeight - (bottom+top)*yres/2540` in unsigned
arithmetic (job-process.c 439). -/
def pngIHeight (j : PngRenderIn) : Nat :=
  u32sub j.cupsHeight ((j.bottomMargin + j.topMargin) * j.yres / 2540)

/-- `*pixptr`: pixel fetch through the stepped pointer (reads outside
the buffer, undefined in C, are read as 0). -/
def pixAt (pixels : List Nat) (ptr : Int) : Nat :=
  if 0 ≤ ptr then pixels.getD ptr.toNat 0 else 0

/-- `options.dither[y & 15][x & 15]`. -/
def ditherAt (d : List (List Nat)) (y x : Nat) : Nat :=
  (d.getD (y % 16) []).getD (x % 16) 0

/-- State of the inner dithering loop of `process_png` (job-process.c
lines 605-631): the stepped pixel pointer, the Bresenham error
accumulator, the current bit and byte being packed, and the completed
bytes flushed so far. -/
structure DitherXState where
  pixptr : Int
  xerr : Int
  bit : Nat
  byte : Nat
  outBytes : List Nat
deriving DecidableEq, Repr

/-- One iteration of the inner x loop: threshold the source pixel
against the dither cell, advance the pixel pointer by `xstep` plus the
error carry, and pack the bit MSB-first, flushing each full byte. -/
def ditherXStep (pixels : List Nat) (d : List (List Nat)) (y : Nat)
    (xsize xmod : Nat) (xstep xdir : Int) (x : Nat) (st : DitherXState) :
    DitherXState :=
  let byte := if pixAt pixels st.pixptr ≤ ditherAt d y x then
    st.byte ||| st.bit else st.byte
  let pixptr := st.pixptr + xstep
  let xerr := st.xerr + (xmod : Int)
  let ep := if xerr ≥ (xsize : Int) then (xerr - (xsize : Int), pixptr + xdir)
    else (xerr, pixptr)
  if st.bit = 1 then
    { pixptr := ep.2, xerr := ep.1, bit := 128, byte := 0,
      outBytes := st.outBytes ++ [byte] }
  else
    { pixptr := ep.2, xerr := ep.1, bit := st.bit / 2, byte := byte,
      outBytes := st.outBytes }

/-- The inner x loop, iterated from `xstart` for `xend - xstart`
steps. -/
def ditherXLoop (pixels : List Nat) (d : List (List Nat)) (y : Nat)
    (xsize xmod : Nat) (xstep xdir : Int) :
    Nat → Nat → DitherXState → DitherXState
  | 0, _, st => st
  | n + 1, x, st =>
    ditherXLoop pixels d y xsize xmod xstep xdir n (x + 1)
      (ditherXStep pixels d y xsize xmod xstep xdir x st)

/-- Pad/truncate a byte list to the line length. -/
def padToLen (bpl : Nat) (l : List Nat) : List Nat :=
  (l ++ List.replicate (bpl - l.length) 0).take bpl

/-- One dithered output row: the packed bytes start at byte `xstart/8`
of the (zeroed) line buffer; a final partial byte is stored when
`bit < 128` (job-process.c lines 600-634). -/
def pngDitherRow (pixels : List Nat) (d : List (List Nat)) (rowBase : Int)
    (xsize xmod : Nat) (xstep xdir : Int) (xstart xend bpl y : Nat) :
    List Nat :=
  let st0 : DitherXState :=
    { pixptr := rowBase, xerr := 0, bit := 128 >>> (xstart % 8), byte := 0,
      outBytes := [] }
  let st := ditherXLoop pixels d y xsize xmod xstep xdir (xend - xstart)
    xstart st0
  let bytesOut := if st.bit < 128 then st.outBytes ++ [st.byte]
    else st.outBytes
  padToLen bpl (List.replicate (xstart / 8) 0 ++ bytesOut)

/-- All rows of one copy, in the order they are passed to `rwrite`:
`ystart` leading blank lines, the dithered band, and trailing blank
lines up to `cupsHeight` (job-process.c lines 588-652). -/
def pngPageRows (j : PngRenderIn) : List (List Nat) :=
  let o := resolveOrientation j.orient j.pw j.ph j.cupsWidth j.cupsHeight
  let g := pngGeom o j.pw j.ph (pngIWidth j) (pngIHeight j)
  let xstart := pngXStart (pngILeft j) (pngIWidth j) g
  let xend := xstart + g.xsize
  let ystart := pngYStart (pngITop j) (pngIHeight j) g
  let yend := ystart + g.ysize
  let xmod := g.pngW % g.xsize
  let xstep := ((g.pngW / g.xsize : Nat) : Int) * g.xdir
  let blank := List.replicate j.bytesPerLine 0
  let dithered := (List.range (yend - ystart)).map (fun i =>
    let y := ystart + i
    let rowBase := g.pixbase +
      g.ydir * (((y - ystart) * g.pngH / g.ysize : Nat) : Int)
    pngDitherRow j.pixels j.dither rowBase g.xsize xmod xstep g.xdir
      xstart xend j.bytesPerLine y)
  List.replicate ystart blank ++ dithered ++
    List.replicate (j.cupsHeight - yend) blank

/-- The full line stream of a successful `process_png` run: the page
rows repeated once per copy; an empty imageable region aborts before
any line is written (job-process.c lines 443-447). -/
def pngRenderLines (j : PngRenderIn) : List (List Nat) :=
  if pngIWidth j = 0 ∨ pngIHeight j = 0 then []
  else List.join (List.replicate j.copies (pngPageRows j))

/-- PNG-path driver callbacks as boolean oracles: `rstartpage` and
`rendpage` indexed by copy, `rwrite` by the global write count. -/
structure PngCbs where
  rstartjob : Bool
  rstartpage : Nat → Bool
  rwrite : Nat → Bool
  rendpage : Nat → Bool
  rendjob : Bool

/-- The lines passed to `rwrite` for one copy's rows: each row is
passed in order; a false return aborts after that call. -/
def pngWriteRows (cb : Nat → Bool) :
    List (List Nat) → Nat → List (List Nat) × Nat × Bool
  | [], idx => ([], idx, false)
  | r :: rest, idx =>
    if cb idx then
      let t := pngWriteRows cb rest (idx + 1)
      (r :: t.1, t.2.1, t.2.2)
    else ([r], idx + 1, true)

/-- The copies loop of `process_png` (job-process.c lines 580-662):
per copy `rstartpage`, the row writes, `rendpage`; any failure aborts
the job, ending the stream. -/
def pngCopiesRun (cbs : PngCbs) (rows : List (List Nat)) :
    Nat → Nat → Nat → List (List Nat)
  | 0, _, _ => []
  | n + 1, copyIdx, widx =>
    if cbs.rstartpage copyIdx then
      let t := pngWriteRows cbs.rwrite rows widx
      if t.2.2 then t.1
      else if cbs.rendpage copyIdx then
        t.1 ++ pngCopiesRun cbs rows n (copyIdx + 1) t.2.1
      else t.1
    else []

/-- A run of `process_png` over the fixed inputs and a schedule of
callback outcomes, returning the stream of line buffers passed to
`rwrite`, in order. -/
def process_png_run (j : PngRenderIn) (cbs : PngCbs) : List (List Nat) :=
  if pngIWidth j = 0 ∨ pngIHeight j = 0 then []
  else if cbs.rstartjob = false then []
  else pngCopiesRun cbs (pngPageRows j) j.copies 0 0

/-- A schedule on which every callback succeeds. -/
def pngAllOk (cbs : PngCbs) : Prop :=
  cbs.rstartjob = true ∧ (∀ n, cbs.rstartpage n = true) ∧
    (∀ n, cbs.rwrite n = true) ∧ (∀ n, cbs.rendpage n = true)

theorem pngWriteRows_allOk (cb : Nat → Bool) (hcb : ∀ n, cb n = true) :
    ∀ (rows : List (List Nat)) (idx : Nat),
    pngWriteRows cb rows idx = (rows, idx + rows.length, false) := by
  intro rows
  induction rows with
  | nil => intro idx; simp [pngWriteRows]
  | cons r rest ih =>
    intro idx
    rw [pngWriteRows, hcb idx, if_pos rfl, ih (idx + 1)]
    simp
    omega

theorem pngCopiesRun_allOk (cbs : PngCbs)
    (h1 : ∀ n, cbs.rstartpage n = true) (h2 : ∀ n, cbs.rwrite n = true)
    (h3 : ∀ n, cbs.rendpage n = true) (rows : List (List Nat)) :
    ∀ (n copyIdx widx : Nat),
    pngCopiesRun cbs rows n copyIdx widx =
      List.join (List.replicate n rows) := by
  intro n
  induction n with
  | zero => intro copyIdx widx; rfl
  | succ n ih =>
    intro copyIdx widx
    rw [pngCopiesRun, h1, if_pos rfl, pngWriteRows_allOk cbs.rwrite h2]
    simp only [h3, if_pos rfl, Bool.false_eq_true, if_false]
    rw [ih (copyIdx + 1) (widx + rows.length)]
    simp [List.replicate_succ]

/-- Under an all-success schedule, the run's write stream is the pure
render. -/
theorem process_png_run_allOk (j : PngRenderIn) (cbs : PngCbs)
    (h : pngAllOk cbs) : process_png_run j cbs = pngRenderLines j := by
  obtain ⟨ha, hb, hc, hd⟩ := h
  rw [process_png_run, pngRenderLines]
  split
  · rfl
  · rw [ha]
    simp only [Bool.true_eq_false, if_false]
    exact pngCopiesRun_allOk cbs hb hc hd (pngPageRows j) j.copies 0 0

/-- C2: the PNG renderer is deterministic — for a fixed input
(grayscale buffer, dimensions, orientation, margins, resolution,
dither matrix, copies), any two successful runs pass byte-identical
line buffers in the same order to `rwrite`, and that stream is the
pure function `pngRenderLines` of the input. -/
theorem process_png_deterministic (j : PngRenderIn) (cbs1 cbs2 : PngCbs)
    (h1 : pngAllOk cbs1) (h2 : pngAllOk cbs2) :
    process_png_run j cbs1 = process_png_run j cbs2 ∧
    process_png_run j cbs1 = pngRenderLines j :=
  ⟨(process_png_run_allOk j cbs1 h1).trans
      (process_png_run_allOk j cbs2 h2).symm,
    process_png_run_allOk j cbs1 h1⟩

/-- A tiny concrete render job. -/
def samplePngJob : PngRenderIn :=
  { pixels := [0, 255, 255, 0]
    pw := 2
    ph := 2
    orient := Orient.portrait
    leftMargin := 0
    rightMargin := 0
    topMargin := 0
    bottomMargin := 0
    xres := 203
    yres := 203
    cupsWidth := 2
    cupsHeight := 2
    bytesPerLine := 1
    dither := List.replicate 16 (List.replicate 16 127)
    copies := 1 }

/-- An all-success callback schedule. -/
def pngCbsAllOk : PngCbs :=
  { rstartjob := true
    rstartpage := fun _ => true
    rwrite := fun _ => true
    rendpage := fun _ => true
    rendjob := true }

theorem process_png_deterministic_witness :
    pngAllOk pngCbsAllOk ∧
    (process_png_run samplePngJob pngCbsAllOk =
        process_png_run samplePngJob pngCbsAllOk ∧
      process_png_run samplePngJob pngCbsAllOk =
        pngRenderLines samplePngJob) :=
  ⟨⟨rfl, fun _ => rfl, fun _ => rfl, fun _ => rfl⟩,
    process_png_deterministic samplePngJob pngCbsAllOk pngCbsAllOk
      ⟨rfl, fun _ => rfl, fun _ => rfl, fun _ => rfl⟩
      ⟨rfl, fun _ => rfl, fun _ => rfl, fun _ => rfl⟩⟩
